import Mathlib

/-!
# Verification of the `abemon-es/observability` reconciliation scripts

Shallow embedding of the Uptime Kuma reconciliation scripts:

* `scripts/add-ssl-dns-monitors.js` — creates SSL / DNS / HTTP monitors,
  classifying each create response as added, skipped (uniqueness conflict)
  or failed;
* the status-page group rebuilder (`src/unnamed/part_000`) — merges the
  catalog's status-page groups with the groups already published;
* the monitor deletion tool (`src/unnamed/part_002`);
* `scripts/fix-api-pricing.js` — edits one monitor.

Pure logic (response classification, summary counting, group merging,
argument parsing) is embedded as Lean functions; the network is modelled
as explicit response values or a state of existing monitor names.
-/

set_option autoImplicit false

namespace Observability

/-! ## JavaScript string primitives used by the scripts -/

/-- `needle.isPrefixOf hay || ...` scan: Boolean infix (substring) test on
character lists, the semantics of JavaScript `String.prototype.includes`. -/
def hasInfix (needle : List Char) : List Char → Bool
  | [] => needle.isEmpty
  | c :: t => needle.isPrefixOf (c :: t) || hasInfix needle t

/-- JavaScript `hay.includes(pat)`. -/
def jsIncludes (hay pat : String) : Bool :=
  hasInfix pat.data hay.data

/-- JavaScript truthiness of a possibly-absent string value:
`undefined`/missing and the empty string are falsy, every other string is
truthy. -/
def jsTruthy : Option String → Bool
  | none => false
  | some s => !(s == "")

/-! ## `addMonitor` response classification (`add-ssl-dns-monitors.js:97-114`)

The `add` callback receives `{ok, msg?, monitorID?}`.  On `ok` the item is
added; otherwise the code checks
`response.msg && response.msg.includes("UNIQUE constraint failed")` and
resolves the item as skipped on a match, rejecting (failure) otherwise. -/

/-- Response of the `add` (create monitor) operation. -/
structure AddResponse where
  ok : Bool
  msg : Option String
  monitorID : Option Nat
deriving DecidableEq, Repr

/-- Marker substring the script searches for in `response.msg`
(`add-ssl-dns-monitors.js:105`). -/
def uniqueMarker : String := "UNIQUE constraint failed"

/-- Outcome of one create attempt as the script records it. -/
inductive AddOutcome where
  | added
  | skippedDup
  | failed (errMsg : String)
deriving DecidableEq, Repr

/-- `addMonitor`'s classification of the create response
(`add-ssl-dns-monitors.js:97-114`): `ok` resolves as added; otherwise a
truthy `msg` containing the uniqueness marker resolves as skipped; any
other failure rejects with the composed error message. -/
def classifyAdd (name : String) (r : AddResponse) : AddOutcome :=
  if r.ok then
    .added
  else if jsTruthy r.msg && jsIncludes (r.msg.getD "") uniqueMarker then
    .skippedDup
  else
    .failed ("Failed to add " ++ name ++ ": " ++ (r.msg.getD "undefined"))

/-! ### Helper lemmas about the substring test -/

theorem hasInfix_nil_of_ne_nil (needle : List Char) (h : needle ≠ []) :
    hasInfix needle [] = false := by
  cases needle with
  | nil => exact absurd rfl h
  | cons c t => rfl

theorem jsIncludes_empty_marker : jsIncludes "" uniqueMarker = false := by
  decide

/-- For `ok = false` responses the skip test in Boolean form agrees with
"the `msg` field is present and contains the marker". -/
theorem skipTest_iff (msg : Option String) :
    (jsTruthy msg && jsIncludes (msg.getD "") uniqueMarker) = true ↔
      ∃ s, msg = some s ∧ jsIncludes s uniqueMarker = true := by
  cases msg with
  | none =>
      simp [jsTruthy]
  | some s =>
      by_cases hs : s = ""
      · subst hs
        simp [jsTruthy, jsIncludes_empty_marker]
      · constructor
        · intro h
          exact ⟨s, rfl, (Bool.and_eq_true _ _ |>.mp h).2⟩
        · rintro ⟨t, ht, hinc⟩
          cases ht
          have htruthy : jsTruthy (some s) = true := by
            simp [jsTruthy, hs]
          simp [htruthy, hinc]

/-- **C1.** For every create response with `ok = false`, the item is
classified as skipped iff the `msg` field is present and contains the
uniqueness-violation marker; every other `ok = false` response yields a
failure outcome, never skipped (and never added). -/
theorem claim1_skip_iff_unique_marker (name : String) (r : AddResponse)
    (hok : r.ok = false) :
    (classifyAdd name r = .skippedDup ↔
        ∃ s, r.msg = some s ∧ jsIncludes s uniqueMarker = true) ∧
      (¬ (∃ s, r.msg = some s ∧ jsIncludes s uniqueMarker = true) →
        ∃ e, classifyAdd name r = .failed e) := by
  constructor
  · constructor
    · intro hc
      by_cases htest :
          (jsTruthy r.msg && jsIncludes (r.msg.getD "") uniqueMarker) = true
      · exact (skipTest_iff r.msg).mp htest
      · exfalso
        unfold classifyAdd at hc
        rw [hok] at hc
        simp only [Bool.false_eq_true, if_false] at hc
        rw [if_neg htest] at hc
        exact AddOutcome.noConfusion hc
    · intro hex
      have htest := (skipTest_iff r.msg).mpr hex
      unfold classifyAdd
      rw [hok]
      simp only [Bool.false_eq_true, if_false]
      rw [if_pos htest]
  · intro hnot
    refine ⟨"Failed to add " ++ name ++ ": " ++ (r.msg.getD "undefined"), ?_⟩
    have htest :
        (jsTruthy r.msg && jsIncludes (r.msg.getD "") uniqueMarker) ≠ true := by
      intro h
      exact hnot ((skipTest_iff r.msg).mp h)
    unfold classifyAdd
    rw [hok]
    simp only [Bool.false_eq_true, if_false]
    rw [if_neg htest]

/-- Witness for C1: a concrete `ok = false` response whose message carries
the marker is classified skipped, by the theorem itself. -/
theorem claim1_witness :
    (AddResponse.mk false (some "UNIQUE constraint failed: monitor.name") none).ok
        = false ∧
      classifyAdd "abemon.es SSL"
          (AddResponse.mk false (some "UNIQUE constraint failed: monitor.name") none)
        = .skippedDup :=
  ⟨rfl,
    (claim1_skip_iff_unique_marker "abemon.es SSL"
        (AddResponse.mk false (some "UNIQUE constraint failed: monitor.name") none)
        rfl).1.mpr
      ⟨"UNIQUE constraint failed: monitor.name", rfl, by decide⟩⟩

/-! ## Desired-state catalog (`add-ssl-dns-monitors.js:27-60`)

The catalog constants `SSL_MONITORS`, `DNS_MONITORS` and `HTTP_MONITORS`
carry the monitor `name` (the sole correlation key with observed state)
plus target/grouping fields the claims never consult; the embedding keeps
the `name` projection of each entry, in declaration order. -/

def SSL_MONITOR_NAMES : List String :=
  ["abemon.es SSL", "bm.consulting SSL", "foodplan.pro SSL",
   "blue-mountain.es SSL", "codex.abemon.es SSL", "logisticsexpress.es SSL",
   "concursal.consulting SSL", "status.abemon.es SSL", "logs.abemon.es SSL",
   "pricing.logisticsexpress.es SSL"]

def DNS_MONITOR_NAMES : List String :=
  ["abemon.es DNS", "bm.consulting DNS", "foodplan.pro DNS",
   "codex.abemon.es DNS", "logisticsexpress.es DNS", "blue-mountain.es DNS"]

def HTTP_MONITOR_NAMES : List String :=
  ["abemon.es", "bm.consulting", "codex.abemon.es", "blue-mountain.es",
   "foodplan.pro", "api-pricing", "Grafana", "Loki"]

/-! ## Remote-service model for reconciliation (claim C2's assumption)

The observed state is the list of monitor names that exist on the service.
A create for an existing name answers `ok = false` with a message carrying
the uniqueness marker (the claim's stated assumption about the remote
service); a create for a fresh name succeeds and records the name. -/

/-- Message the modelled service returns on a duplicate create. -/
def dupMsg : String := "UNIQUE constraint failed: monitor.name"

/-- One create against the modelled service: returns the new observed
state and the `add` response. -/
def serviceCreate (s : List String) (n : String) : List String × AddResponse :=
  if n ∈ s then (s, ⟨false, some dupMsg, none⟩)
  else (s ++ [n], ⟨true, none, some (s.length + 1)⟩)

/-- Per-category create loop (`addSSLMonitors` / `addDNSMonitors` /
`addHTTPMonitors`, `add-ssl-dns-monitors.js:116-228`): each catalog entry
is sent sequentially; an added response bumps `added`, a skipped one bumps
`skipped`, a failure is caught and counted in neither. Returns the final
observed state with the `{added, skipped}` pair the function returns. -/
def processMonitors (s : List String) : List String → List String × Nat × Nat
  | [] => (s, 0, 0)
  | n :: rest =>
      let step := serviceCreate s n
      let tail := processMonitors step.1 rest
      match classifyAdd n step.2 with
      | .added => (tail.1, tail.2.1 + 1, tail.2.2)
      | .skippedDup => (tail.1, tail.2.1, tail.2.2 + 1)
      | .failed _ => (tail.1, tail.2.1, tail.2.2)

/-- Per-category `{added, skipped}` summary object. -/
structure CatSummary where
  added : Nat
  skipped : Nat
deriving DecidableEq, Repr

/-- Result of one full reconciliation run (`main`,
`add-ssl-dns-monitors.js:230-283`): final observed state and the three
per-category summaries, produced sequentially SSL then DNS then HTTP. -/
structure RunResult where
  state : List String
  ssl : CatSummary
  dns : CatSummary
  http : CatSummary
deriving DecidableEq, Repr

/-- Full reconciliation run against the modelled service. -/
def runReconciliation (s : List String) : RunResult :=
  let r1 := processMonitors s SSL_MONITOR_NAMES
  let r2 := processMonitors r1.1 DNS_MONITOR_NAMES
  let r3 := processMonitors r2.1 HTTP_MONITOR_NAMES
  ⟨r3.1, ⟨r1.2.1, r1.2.2⟩, ⟨r2.2.1, r2.2.2⟩, ⟨r3.2.1, r3.2.2⟩⟩

/-! ### Lemmas about the create loop under the modelled service -/

theorem classifyAdd_dup (n : String) :
    classifyAdd n ⟨false, some dupMsg, none⟩ = .skippedDup := rfl

theorem classifyAdd_fresh (n : String) (id : Nat) :
    classifyAdd n ⟨true, none, some id⟩ = .added := rfl

/-- The observed state only grows along the create loop. -/
theorem processMonitors_state_mono (names : List String) (s : List String)
    (x : String) (hx : x ∈ s) : x ∈ (processMonitors s names).1 := by
  induction names generalizing s with
  | nil => exact hx
  | cons n rest ih =>
      show x ∈ (processMonitors s (n :: rest)).1
      unfold processMonitors serviceCreate
      by_cases hmem : n ∈ s
      · rw [if_pos hmem]
        simp only [classifyAdd_dup]
        exact ih s hx
      · rw [if_neg hmem]
        simp only [classifyAdd_fresh]
        exact ih (s ++ [n]) (List.mem_append_left _ hx)

/-- Every name sent through the create loop exists afterwards. -/
theorem processMonitors_mem (names : List String) (s : List String)
    (x : String) (hx : x ∈ names) : x ∈ (processMonitors s names).1 := by
  induction names generalizing s with
  | nil => cases hx
  | cons n rest ih =>
      show x ∈ (processMonitors s (n :: rest)).1
      unfold processMonitors serviceCreate
      rcases List.mem_cons.mp hx with hx | hx
      · subst hx
        by_cases hmem : x ∈ s
        · rw [if_pos hmem]
          simp only [classifyAdd_dup]
          exact processMonitors_state_mono rest s x hmem
        · rw [if_neg hmem]
          simp only [classifyAdd_fresh]
          exact processMonitors_state_mono rest (s ++ [x]) x (by simp)
      · by_cases hmem : n ∈ s
        · rw [if_pos hmem]
          simp only [classifyAdd_dup]
          exact ih s hx
        · rw [if_neg hmem]
          simp only [classifyAdd_fresh]
          exact ih (s ++ [n]) hx

/-- When every name already exists, the loop changes nothing, adds nothing
and skips every item. -/
theorem processMonitors_all_present (names : List String) (s : List String)
    (h : ∀ x ∈ names, x ∈ s) :
    processMonitors s names = (s, 0, names.length) := by
  induction names with
  | nil => rfl
  | cons n rest ih =>
      have hn : n ∈ s := h n (List.mem_cons_self n rest)
      show processMonitors s (n :: rest) = (s, 0, (n :: rest).length)
      unfold processMonitors serviceCreate
      rw [if_pos hn]
      simp only [classifyAdd_dup]
      rw [ih (fun x hx => h x (List.mem_cons_of_mem n hx))]
      simp [List.length_cons]

/-- When every catalog name already exists, a whole run leaves the state
unchanged, creates nothing and skips every catalog item. -/
theorem runReconciliation_all_present (t : List String)
    (h : ∀ x,
      x ∈ SSL_MONITOR_NAMES ∨ x ∈ DNS_MONITOR_NAMES ∨ x ∈ HTTP_MONITOR_NAMES →
        x ∈ t) :
    runReconciliation t
      = ⟨t, ⟨0, SSL_MONITOR_NAMES.length⟩,
           ⟨0, DNS_MONITOR_NAMES.length⟩,
           ⟨0, HTTP_MONITOR_NAMES.length⟩⟩ := by
  have h1 : processMonitors t SSL_MONITOR_NAMES
      = (t, 0, SSL_MONITOR_NAMES.length) :=
    processMonitors_all_present _ _ (fun x hx => h x (Or.inl hx))
  have h2 : processMonitors t DNS_MONITOR_NAMES
      = (t, 0, DNS_MONITOR_NAMES.length) :=
    processMonitors_all_present _ _ (fun x hx => h x (Or.inr (Or.inl hx)))
  have h3 : processMonitors t HTTP_MONITOR_NAMES
      = (t, 0, HTTP_MONITOR_NAMES.length) :=
    processMonitors_all_present _ _ (fun x hx => h x (Or.inr (Or.inr hx)))
  simp only [runReconciliation, h1, h2, h3]

/-- Every name of every catalog category exists after one full run. -/
theorem runReconciliation_covers (s : List String) (x : String)
    (hx : x ∈ SSL_MONITOR_NAMES ∨ x ∈ DNS_MONITOR_NAMES ∨
      x ∈ HTTP_MONITOR_NAMES) :
    x ∈ (runReconciliation s).state := by
  show x ∈ (processMonitors (processMonitors
      (processMonitors s SSL_MONITOR_NAMES).1 DNS_MONITOR_NAMES).1
      HTTP_MONITOR_NAMES).1
  rcases hx with hx | hx | hx
  · exact processMonitors_state_mono _ _ x
      (processMonitors_state_mono _ _ x (processMonitors_mem _ s x hx))
  · exact processMonitors_state_mono _ _ x (processMonitors_mem _ _ x hx)
  · exact processMonitors_mem _ _ x hx

/-- **C2.** Running the full reconciliation twice from any starting
observed state yields the same final observed state as running it once,
and the second run creates nothing and skips every catalog item in every
category (10 SSL, 6 DNS, 8 HTTP), assuming the modelled service answers a
create for an existing name with a uniqueness conflict. -/
theorem claim2_reconciliation_idempotent (s : List String) :
    (runReconciliation (runReconciliation s).state).state
        = (runReconciliation s).state ∧
      runReconciliation (runReconciliation s).state
        = ⟨(runReconciliation s).state,
            ⟨0, SSL_MONITOR_NAMES.length⟩,
            ⟨0, DNS_MONITOR_NAMES.length⟩,
            ⟨0, HTTP_MONITOR_NAMES.length⟩⟩ := by
  have hrun := runReconciliation_all_present (runReconciliation s).state
    (fun x hx => runReconciliation_covers s x hx)
  exact ⟨by rw [hrun], hrun⟩

/-! ## Per-item events and the category summary loop

Each loop iteration in `addSSLMonitors` / `addDNSMonitors` /
`addHTTPMonitors` (`add-ssl-dns-monitors.js:116-228`) awaits
`withTimeout(addMonitor(socket, monitor), 10000, name)`: the item either
gets a callback response or the 10 s race rejects.  A resolved skipped
response bumps `skipped`, a resolved added response bumps `added`, and any
rejection (failure response or timeout) is caught, logged to stderr and
counted in neither. -/

/-- What one reconciliation item observes: a service response, or the
expiry of its 10 s per-item timeout. -/
inductive ItemEvent where
  | response (r : AddResponse)
  | timeout
deriving DecidableEq, Repr

/-- Outcome of one item: responses go through `addMonitor`'s
classification; a per-item timeout rejects with the `withTimeout` error
(`add-ssl-dns-monitors.js:71-78`), hence a failure. -/
def itemOutcome (name : String) : ItemEvent → AddOutcome
  | .response r => classifyAdd name r
  | .timeout => .failed ("Timeout after 10000ms for " ++ name)

/-- One iteration of the category loop acting on the
`(added, skipped)` accumulator pair. -/
def categoryStep (acc : Nat × Nat) (item : String × ItemEvent) : Nat × Nat :=
  match itemOutcome item.1 item.2 with
  | .added => (acc.1 + 1, acc.2)
  | .skippedDup => (acc.1, acc.2 + 1)
  | .failed _ => acc

/-- The whole category loop: sequentially processes every item and
returns the `{added, skipped}` pair the category function returns to
`main`. -/
def runCategoryLoop (items : List (String × ItemEvent)) : Nat × Nat :=
  items.foldl categoryStep (0, 0)

/-- Exit code of `main` (`add-ssl-dns-monitors.js:262,268`): the success
path ends in `process.exit(0)`, the catch path in `process.exit(1)`.
Per-item failures are caught inside the category loops and never reach
`main`'s catch, so completion of the run alone picks the code. -/
def addScriptExit (runCompleted : Bool) : Nat :=
  if runCompleted then 0 else 1

/-- What one delete item observes in the deletion tool
(`src/unnamed/part_002:100-108`). -/
inductive DeleteEvent where
  | response (ok : Bool)
  | timeout
deriving DecidableEq, Repr

/-- Whether a delete item succeeds: an `ok` response resolves; a failure
response or the 10 s per-item timeout rejects into the catch. -/
def deleteOutcomeOk : DeleteEvent → Bool
  | .response ok => ok
  | .timeout => false

/-- One iteration of the deletion loop on the `(deleted, failed)`
accumulator. -/
def deleteStep (acc : Nat × Nat) (ev : DeleteEvent) : Nat × Nat :=
  if deleteOutcomeOk ev then (acc.1 + 1, acc.2) else (acc.1, acc.2 + 1)

/-- The deletion loop: `deleted` counts resolved deletes, `failed` counts
caught rejections; the loop continues either way. -/
def runDeleteLoop (items : List DeleteEvent) : Nat × Nat :=
  items.foldl deleteStep (0, 0)

/-- Exit code of the deletion tool's `main`
(`src/unnamed/part_002:116,122`): `process.exit(0)` on the completion
path regardless of the `failed` count, `process.exit(1)` in the catch. -/
def deleteScriptExit (runCompleted : Bool) : Nat :=
  if runCompleted then 0 else 1

/-! ### Accumulator lemmas -/

theorem runCategoryLoop_shift (items : List (String × ItemEvent))
    (a k : Nat) :
    items.foldl categoryStep (a, k)
      = (a + (runCategoryLoop items).1, k + (runCategoryLoop items).2) := by
  induction items generalizing a k with
  | nil => simp [runCategoryLoop]
  | cons it rest ih =>
      show List.foldl categoryStep (categoryStep (a, k) it) rest = _
      have hR : runCategoryLoop (it :: rest)
          = List.foldl categoryStep (categoryStep (0, 0) it) rest := rfl
      rw [hR]
      cases houtcome : itemOutcome it.1 it.2 with
      | added =>
          have hs : ∀ p : Nat × Nat, categoryStep p it = (p.1 + 1, p.2) := by
            intro p
            unfold categoryStep
            rw [houtcome]
          rw [hs (a, k), hs (0, 0), ih (a + 1) k, ih 1 0]
          simp only [Prod.mk.injEq]
          omega
      | skippedDup =>
          have hs : ∀ p : Nat × Nat, categoryStep p it = (p.1, p.2 + 1) := by
            intro p
            unfold categoryStep
            rw [houtcome]
          rw [hs (a, k), hs (0, 0), ih a (k + 1), ih 0 1]
          simp only [Prod.mk.injEq]
          omega
      | failed e =>
          have hs : ∀ p : Nat × Nat, categoryStep p it = p := by
            intro p
            unfold categoryStep
            rw [houtcome]
          rw [hs (a, k), hs (0, 0), ih a k, ih 0 0]
          simp only [Prod.mk.injEq]
          omega

theorem runDeleteLoop_shift (items : List DeleteEvent) (d f : Nat) :
    items.foldl deleteStep (d, f)
      = (d + (runDeleteLoop items).1, f + (runDeleteLoop items).2) := by
  induction items generalizing d f with
  | nil => simp [runDeleteLoop]
  | cons ev rest ih =>
      show List.foldl deleteStep (deleteStep (d, f) ev) rest = _
      have hR : runDeleteLoop (ev :: rest)
          = List.foldl deleteStep (deleteStep (0, 0) ev) rest := rfl
      rw [hR]
      cases hok : deleteOutcomeOk ev with
      | true =>
          have hs : ∀ p : Nat × Nat, deleteStep p ev = (p.1 + 1, p.2) := by
            intro p
            unfold deleteStep
            rw [hok]
            simp
          rw [hs (d, f), hs (0, 0), ih (d + 1) f, ih 1 0]
          simp only [Prod.mk.injEq]
          omega
      | false =>
          have hs : ∀ p : Nat × Nat, deleteStep p ev = (p.1, p.2 + 1) := by
            intro p
            unfold deleteStep
            rw [hok]
            simp
          rw [hs (d, f), hs (0, 0), ih d (f + 1), ih 0 1]
          simp only [Prod.mk.injEq]
          omega

/-- **C5.** A failing item (error response or per-item timeout) does not
stop the loop: the items after it are still processed and their outcomes
are reflected in the summary — the summary of `xs ++ failing :: ys` is the
componentwise sum of the summaries of `xs` and of `ys` (for the create
loops) and likewise with one extra failure for the delete loop — and a
completed run exits 0 regardless. -/
theorem claim5_partial_failure_isolation
    (xs ys : List (String × ItemEvent)) (nm : String) (ev : ItemEvent)
    (hfail : ∃ e, itemOutcome nm ev = .failed e)
    (dxs dys : List DeleteEvent) (dev : DeleteEvent)
    (hdfail : deleteOutcomeOk dev = false) :
    runCategoryLoop (xs ++ (nm, ev) :: ys)
        = ((runCategoryLoop xs).1 + (runCategoryLoop ys).1,
           (runCategoryLoop xs).2 + (runCategoryLoop ys).2) ∧
      runDeleteLoop (dxs ++ dev :: dys)
        = ((runDeleteLoop dxs).1 + (runDeleteLoop dys).1,
           (runDeleteLoop dxs).2 + 1 + (runDeleteLoop dys).2) ∧
      addScriptExit true = 0 ∧ deleteScriptExit true = 0 := by
  obtain ⟨e, he⟩ := hfail
  refine ⟨?_, ?_, rfl, rfl⟩
  · have hstep : categoryStep (runCategoryLoop xs) (nm, ev)
        = runCategoryLoop xs := by
      unfold categoryStep
      rw [he]
    calc runCategoryLoop (xs ++ (nm, ev) :: ys)
        = ((nm, ev) :: ys).foldl categoryStep (runCategoryLoop xs) := by
          unfold runCategoryLoop
          rw [List.foldl_append]
      _ = ys.foldl categoryStep (runCategoryLoop xs) := by
          show ys.foldl categoryStep (categoryStep (runCategoryLoop xs) (nm, ev)) = _
          rw [hstep]
      _ = ((runCategoryLoop xs).1 + (runCategoryLoop ys).1,
           (runCategoryLoop xs).2 + (runCategoryLoop ys).2) := by
          rw [show runCategoryLoop xs
              = ((runCategoryLoop xs).1, (runCategoryLoop xs).2) from rfl]
          exact runCategoryLoop_shift ys _ _
  · have hstep : deleteStep (runDeleteLoop dxs) dev
        = ((runDeleteLoop dxs).1, (runDeleteLoop dxs).2 + 1) := by
      unfold deleteStep
      rw [hdfail]
      simp
    calc runDeleteLoop (dxs ++ dev :: dys)
        = (dev :: dys).foldl deleteStep (runDeleteLoop dxs) := by
          unfold runDeleteLoop
          rw [List.foldl_append]
      _ = dys.foldl deleteStep
            ((runDeleteLoop dxs).1, (runDeleteLoop dxs).2 + 1) := by
          show dys.foldl deleteStep (deleteStep (runDeleteLoop dxs) dev) = _
          rw [hstep]
      _ = ((runDeleteLoop dxs).1 + (runDeleteLoop dys).1,
           (runDeleteLoop dxs).2 + 1 + (runDeleteLoop dys).2) :=
          runDeleteLoop_shift dys _ _

/-- Witness for C5: a concrete four-item create run whose second item
times out still counts the later added and skipped items, and a concrete
delete run around one failed delete, with completion exit codes 0. -/
theorem claim5_witness :
    runCategoryLoop
        ([("abemon.es SSL", ItemEvent.response ⟨true, none, some 1⟩)] ++
          ("bm.consulting SSL", ItemEvent.timeout) ::
            [("foodplan.pro SSL", ItemEvent.response ⟨false, some dupMsg, none⟩),
             ("blue-mountain.es SSL", ItemEvent.response ⟨true, none, some 2⟩)])
        = ((runCategoryLoop
              [("abemon.es SSL", ItemEvent.response ⟨true, none, some 1⟩)]).1 +
            (runCategoryLoop
              [("foodplan.pro SSL", ItemEvent.response ⟨false, some dupMsg, none⟩),
               ("blue-mountain.es SSL", ItemEvent.response ⟨true, none, some 2⟩)]).1,
           (runCategoryLoop
              [("abemon.es SSL", ItemEvent.response ⟨true, none, some 1⟩)]).2 +
            (runCategoryLoop
              [("foodplan.pro SSL", ItemEvent.response ⟨false, some dupMsg, none⟩),
               ("blue-mountain.es SSL", ItemEvent.response ⟨true, none, some 2⟩)]).2) ∧
      runDeleteLoop
          ([DeleteEvent.response true] ++ DeleteEvent.timeout ::
            [DeleteEvent.response true])
        = ((runDeleteLoop [DeleteEvent.response true]).1 +
            (runDeleteLoop [DeleteEvent.response true]).1,
           (runDeleteLoop [DeleteEvent.response true]).2 + 1 +
            (runDeleteLoop [DeleteEvent.response true]).2) ∧
      addScriptExit true = 0 ∧ deleteScriptExit true = 0 :=
  claim5_partial_failure_isolation
    [("abemon.es SSL", ItemEvent.response ⟨true, none, some 1⟩)]
    [("foodplan.pro SSL", ItemEvent.response ⟨false, some dupMsg, none⟩),
     ("blue-mountain.es SSL", ItemEvent.response ⟨true, none, some 2⟩)]
    "bm.consulting SSL" ItemEvent.timeout ⟨_, rfl⟩
    [DeleteEvent.response true] [DeleteEvent.response true]
    DeleteEvent.timeout rfl

/-! ## C7: what the per-category summary actually contains

`addSSLMonitors` and its siblings return only `{added, skipped}`
(`add-ssl-dns-monitors.js:151,189,227`), and `main` prints only those two
numbers per category (`add-ssl-dns-monitors.js:254-256`).  Failed items
are logged to stderr when they happen and appear nowhere in the returned
summary. -/

/-- **C7 counterexample.** A category run whose single item fails yields
the very same summary as a run with no items at all, `(0, 0)`: the
reported summary carries no failed count and no `{itemName, errorMessage}`
list, so the claim that the Reconciler reports a `{created, skipped,
failed}` triple plus a failure list is false on the code. -/
theorem claim7_counterexample :
    runCategoryLoop [("abemon.es SSL", ItemEvent.timeout)]
        = runCategoryLoop [] ∧
      runCategoryLoop [("abemon.es SSL", ItemEvent.timeout)] = (0, 0) :=
  ⟨rfl, rfl⟩

/-- **C7 (amended).** When reconciliation completes, each category's
summary is exactly the pair of the number of added items and the number
of skipped items; failed items contribute to neither component and no
failure list is returned — failures are only printed to the error stream
as they happen. -/
theorem claim7_amended_summary_pair (items : List (String × ItemEvent)) :
    runCategoryLoop items
      = (items.countP (fun it => decide (itemOutcome it.1 it.2 = .added)),
         items.countP
           (fun it => decide (itemOutcome it.1 it.2 = .skippedDup))) := by
  induction items with
  | nil => rfl
  | cons it rest ih =>
      have hR : runCategoryLoop (it :: rest)
          = rest.foldl categoryStep (categoryStep (0, 0) it) := rfl
      rw [hR]
      cases houtcome : itemOutcome it.1 it.2 with
      | added =>
          have h0 : categoryStep (0, 0) it = (1, 0) := by
            unfold categoryStep
            rw [houtcome]
          rw [h0, runCategoryLoop_shift rest 1 0, ih]
          simp [List.countP_cons, houtcome, Nat.add_comm]
      | skippedDup =>
          have h0 : categoryStep (0, 0) it = (0, 1) := by
            unfold categoryStep
            rw [houtcome]
          rw [h0, runCategoryLoop_shift rest 0 1, ih]
          simp [List.countP_cons, houtcome, Nat.add_comm]
      | failed e =>
          have h0 : categoryStep (0, 0) it = (0, 0) := by
            unfold categoryStep
            rw [houtcome]
          rw [h0, runCategoryLoop_shift rest 0 0, ih]
          simp [List.countP_cons, houtcome]

/-! ## Status-page group rebuilder (`src/unnamed/part_000`)

The rebuilder reads the published group list `publicGroupList`, keeps the
groups whose name is not in `STATUS_PAGE_GROUPS`, then appends one group
per catalog entry whose member names resolve through the observed
name-to-id map, numbering weights from `keepGroups.length + 1` upward
(`src/unnamed/part_000:42-59`). -/

/-- One group as published on the status page: `{name, weight,
monitorList}` with `monitorList` a list of monitor ids. -/
structure ObservedGroup where
  name : String
  weight : Int
  monitorList : List Nat
deriving DecidableEq, Repr

/-- One desired group of the catalog: a name and its member monitor
names. -/
structure GroupSpec where
  name : String
  monitors : List String
deriving DecidableEq, Repr

/-- The catalog constant `STATUS_PAGE_GROUPS`
(`src/unnamed/part_000:8-14`). -/
def STATUS_PAGE_GROUPS : List GroupSpec :=
  [⟨"SSL Certificates",
    ["abemon.es SSL", "bm.consulting SSL", "foodplan.pro SSL",
     "blue-mountain.es SSL", "codex.abemon.es SSL", "logisticsexpress.es SSL",
     "concursal.consulting SSL", "status.abemon.es SSL", "logs.abemon.es SSL",
     "pricing.logisticsexpress.es SSL"]⟩,
   ⟨"DNS Resolution",
    ["abemon.es DNS", "bm.consulting DNS", "foodplan.pro DNS",
     "codex.abemon.es DNS", "logisticsexpress.es DNS",
     "blue-mountain.es DNS"]⟩,
   ⟨"WordPress Sites",
    ["abemon.es", "bm.consulting", "codex.abemon.es", "blue-mountain.es"]⟩,
   ⟨"Apps & APIs", ["foodplan.pro", "api-pricing"]⟩,
   ⟨"Observability", ["Grafana", "Loki"]⟩]

/-- `group.monitors.filter(name => monitorMap[name]).map(name => ({id:
monitorMap[name]}))` (`src/unnamed/part_000:51-53`): member names that
resolve through the map, in order, replaced by their ids; unresolved
names are dropped. -/
def resolveMembers (monitorMap : String → Option Nat) (g : GroupSpec) :
    List Nat :=
  (g.monitors.filter (fun n => (monitorMap n).isSome)).map
    (fun n => (monitorMap n).getD 0)

/-- The `for (const group of STATUS_PAGE_GROUPS)` loop
(`src/unnamed/part_000:50-59`): starting from the accumulated `newGroups`
array and the running `weight` counter, push `{name, weight: weight++,
monitorList}` for each catalog group with a non-empty resolved member
list. -/
def rebuildLoop (monitorMap : String → Option Nat) :
    List GroupSpec → List ObservedGroup → Int → List ObservedGroup
  | [], acc, _ => acc
  | g :: rest, acc, w =>
      let ml := resolveMembers monitorMap g
      if ml.length > 0 then
        rebuildLoop monitorMap rest (acc ++ [⟨g.name, w, ml⟩]) (w + 1)
      else
        rebuildLoop monitorMap rest acc w

/-- `STATUS_PAGE_GROUPS.map(g => g.name)` (`src/unnamed/part_000:43`). -/
def ourGroupNames (catalog : List GroupSpec) : List String :=
  catalog.map (fun g => g.name)

/-- `existingGroups.filter(g => !ourGroupNames.includes(g.name))`
(`src/unnamed/part_000:44`). -/
def keepGroups (existing : List ObservedGroup) (catalog : List GroupSpec) :
    List ObservedGroup :=
  existing.filter (fun g => !((ourGroupNames catalog).contains g.name))

/-- The whole rebuild (`src/unnamed/part_000:42-59`): `newGroups` starts
as a copy of `keepGroups`, `weight` at `keepGroups.length + 1`, then the
catalog loop appends the owned groups.  The result is what
`saveStatusPage` is called with. -/
def rebuildGroups (existing : List ObservedGroup) (catalog : List GroupSpec)
    (monitorMap : String → Option Nat) : List ObservedGroup :=
  rebuildLoop monitorMap catalog (keepGroups existing catalog)
    ((keepGroups existing catalog).length + 1)

/-! ### Structure of the rebuilt list -/

/-- The accumulator passes through the loop untouched: the loop output is
the accumulator followed by the groups emitted from the empty
accumulator. -/
theorem rebuildLoop_acc (monitorMap : String → Option Nat)
    (catalog : List GroupSpec) (acc : List ObservedGroup) (w : Int) :
    rebuildLoop monitorMap catalog acc w
      = acc ++ rebuildLoop monitorMap catalog [] w := by
  induction catalog generalizing acc w with
  | nil => simp [rebuildLoop]
  | cons g rest ih =>
      show rebuildLoop monitorMap (g :: rest) acc w = _
      unfold rebuildLoop
      by_cases h : (resolveMembers monitorMap g).length > 0
      · simp only [h, if_true, List.nil_append]
        rw [ih (acc ++ [ObservedGroup.mk g.name w (resolveMembers monitorMap g)])
            (w + 1),
          ih [ObservedGroup.mk g.name w (resolveMembers monitorMap g)] (w + 1),
          List.append_assoc]
      · simp only [h, if_false]
        rw [ih]

/-- The names of the emitted owned groups form a sublist of the catalog
names: catalog declaration order, possibly with omissions. -/
theorem rebuildLoop_names_sublist (monitorMap : String → Option Nat)
    (catalog : List GroupSpec) (w : Int) :
    ((rebuildLoop monitorMap catalog [] w).map (fun g => g.name)).Sublist
      (catalog.map (fun g => g.name)) := by
  induction catalog generalizing w with
  | nil => simp [rebuildLoop]
  | cons g rest ih =>
      show ((rebuildLoop monitorMap (g :: rest) [] w).map _).Sublist _
      unfold rebuildLoop
      by_cases h : (resolveMembers monitorMap g).length > 0
      · simp only [h, if_true]
        rw [rebuildLoop_acc]
        simp only [List.nil_append, List.singleton_append, List.map_cons]
        exact List.Sublist.cons₂ _ (ih (w + 1))
      · simp only [h, if_false]
        exact List.Sublist.cons _ (ih w)

/-- Every emitted owned group comes from a catalog entry of the same name
whose members did not all fail to resolve. -/
theorem rebuildLoop_mem (monitorMap : String → Option Nat)
    (catalog : List GroupSpec) (w : Int) (og : ObservedGroup)
    (h : og ∈ rebuildLoop monitorMap catalog [] w) :
    ∃ gs, gs ∈ catalog ∧ og.name = gs.name ∧
      resolveMembers monitorMap gs ≠ [] := by
  induction catalog generalizing w with
  | nil => simp [rebuildLoop] at h
  | cons g rest ih =>
      rw [show rebuildLoop monitorMap (g :: rest) [] w
          = (if (resolveMembers monitorMap g).length > 0 then
              rebuildLoop monitorMap rest
                ([] ++ [⟨g.name, w, resolveMembers monitorMap g⟩]) (w + 1)
            else rebuildLoop monitorMap rest [] w) from rfl] at h
      by_cases hnz : (resolveMembers monitorMap g).length > 0
      · rw [if_pos hnz, rebuildLoop_acc] at h
        simp only [List.nil_append, List.singleton_append,
          List.mem_cons] at h
        rcases h with h | h
        · refine ⟨g, List.mem_cons_self g rest, ?_, ?_⟩
          · rw [h]
          · intro hnil
            rw [hnil] at hnz
            simp at hnz
        · obtain ⟨gs, hgs, hname, hne⟩ := ih (w + 1) h
          exact ⟨gs, List.mem_cons_of_mem g hgs, hname, hne⟩
      · rw [if_neg hnz] at h
        obtain ⟨gs, hgs, hname, hne⟩ := ih w h
        exact ⟨gs, List.mem_cons_of_mem g hgs, hname, hne⟩

/-- Every emitted owned group gets a weight at least the starting
counter; weights count up from there. -/
theorem rebuildLoop_weight_ge (monitorMap : String → Option Nat)
    (catalog : List GroupSpec) (w : Int) (og : ObservedGroup)
    (h : og ∈ rebuildLoop monitorMap catalog [] w) : w ≤ og.weight := by
  induction catalog generalizing w with
  | nil => simp [rebuildLoop] at h
  | cons g rest ih =>
      rw [show rebuildLoop monitorMap (g :: rest) [] w
          = (if (resolveMembers monitorMap g).length > 0 then
              rebuildLoop monitorMap rest
                ([] ++ [⟨g.name, w, resolveMembers monitorMap g⟩]) (w + 1)
            else rebuildLoop monitorMap rest [] w) from rfl] at h
      by_cases hnz : (resolveMembers monitorMap g).length > 0
      · rw [if_pos hnz, rebuildLoop_acc] at h
        simp only [List.nil_append, List.singleton_append,
          List.mem_cons] at h
        rcases h with h | h
        · rw [h]
        · have := ih (w + 1) h
          omega
      · rw [if_neg hnz] at h
        exact ih w h

/-- `keepGroups` in specification terms: the filter keeps exactly the
groups whose name is not a catalog name. -/
theorem keepGroups_eq (existing : List ObservedGroup)
    (catalog : List GroupSpec) :
    keepGroups existing catalog
      = existing.filter
          (fun g => decide (¬ g.name ∈ catalog.map (fun s => s.name))) := by
  unfold keepGroups
  apply List.filter_congr
  intro g _hg
  by_cases hm : g.name ∈ catalog.map (fun s => s.name)
  · simp [ourGroupNames, hm]
  · simp [ourGroupNames, hm]

/-- **C3.** The written-back group list is exactly the foreign groups —
those whose name is not in the catalog — unchanged in content and in
their original relative order, followed by the emitted owned groups, in
catalog declaration order (a name sublist of the catalog), each carrying
a catalog name; no foreign group is dropped or modified. -/
theorem claim3_foreign_prefix_owned_suffix (existing : List ObservedGroup)
    (catalog : List GroupSpec) (monitorMap : String → Option Nat) :
    ∃ owned : List ObservedGroup,
      rebuildGroups existing catalog monitorMap
          = existing.filter
              (fun g => decide (¬ g.name ∈ catalog.map (fun s => s.name)))
            ++ owned ∧
        (owned.map (fun g => g.name)).Sublist
          (catalog.map (fun g => g.name)) ∧
        ∀ og ∈ owned, og.name ∈ catalog.map (fun g => g.name) := by
  refine ⟨rebuildLoop monitorMap catalog []
    ((keepGroups existing catalog).length + 1), ?_, ?_, ?_⟩
  · rw [← keepGroups_eq]
    exact rebuildLoop_acc monitorMap catalog (keepGroups existing catalog) _
  · exact rebuildLoop_names_sublist monitorMap catalog _
  · intro og hog
    obtain ⟨gs, hgs, hname, _⟩ := rebuildLoop_mem monitorMap catalog _ og hog
    rw [hname]
    exact List.mem_map_of_mem (fun g => g.name) hgs

/-- **C4 counterexample.** The claim fails on the code: with one foreign
group "External" of weight 100 and the catalog group "Observability"
resolving one member, the rebuilt list assigns the owned group weight
`keepGroups.length + 1 = 2`, which is not strictly greater than the
maximum foreign weight 100. -/
theorem claim4_counterexample :
    rebuildGroups [⟨"External", 100, [1]⟩]
        [⟨"Observability", ["Grafana"]⟩]
        (fun n => if n = "Grafana" then some 5 else none)
      = [⟨"External", 100, [1]⟩, ⟨"Observability", 2, [5]⟩] ∧
      ¬ ((100 : Int) < 2) := by
  refine ⟨?_, by decide⟩
  rfl

/-- **C4 (amended).** Each owned group emitted by the rebuilder is
assigned a weight strictly greater than the *number* of preserved foreign
groups — unconditionally, since weights count up from that number plus
one; it is strictly greater than the maximum weight of the preserved
groups whenever every preserved group's weight is at most the number of
preserved groups, but not in general. -/
theorem claim4_amended_weights (existing : List ObservedGroup)
    (catalog : List GroupSpec) (monitorMap : String → Option Nat)
    (og : ObservedGroup)
    (hog : og ∈ rebuildLoop monitorMap catalog []
      ((keepGroups existing catalog).length + 1)) :
    ((keepGroups existing catalog).length : Int) < og.weight ∧
      ((∀ g ∈ keepGroups existing catalog,
          g.weight ≤ (keepGroups existing catalog).length) →
        ∀ g ∈ keepGroups existing catalog, g.weight < og.weight) := by
  have hge := rebuildLoop_weight_ge monitorMap catalog
    ((keepGroups existing catalog).length + 1) og hog
  constructor
  · omega
  · intro hbound g hg
    have := hbound g hg
    omega

/-- Witness for C4 (amended): one foreign group of weight 1, one owned
group emitted with weight 2, exceeding both the foreign count and every
foreign weight. -/
theorem claim4_amended_witness :
    ((keepGroups [⟨"External", 1, [1]⟩] [⟨"Observability", ["Grafana"]⟩]).length
        : Int)
        < (ObservedGroup.mk "Observability" 2 [5]).weight ∧
      ((∀ g ∈ keepGroups [⟨"External", 1, [1]⟩]
            [⟨"Observability", ["Grafana"]⟩],
          g.weight ≤ (keepGroups [⟨"External", 1, [1]⟩]
            [⟨"Observability", ["Grafana"]⟩]).length) →
        ∀ g ∈ keepGroups [⟨"External", 1, [1]⟩]
            [⟨"Observability", ["Grafana"]⟩],
          g.weight < (ObservedGroup.mk "Observability" 2 [5]).weight) :=
  claim4_amended_weights [⟨"External", 1, [1]⟩]
    [⟨"Observability", ["Grafana"]⟩]
    (fun n => if n = "Grafana" then some 5 else none)
    ⟨"Observability", 2, [5]⟩ (by decide)

/-- **C9.** For every catalog group, a member name that does not resolve
through the observed name-to-id map is silently dropped: the resolved
member list is exactly the members the map resolves (`filterMap`), with
no error channel — partially resolved groups keep exactly their
resolvable members, in order.  And when every member of the group fails
to resolve, the group is omitted entirely from the written-back list —
its name appears nowhere in the output (catalog names assumed distinct,
as the catalog declares them). -/
theorem claim9_unresolved_dropped (existing : List ObservedGroup)
    (catalog : List GroupSpec) (monitorMap : String → Option Nat)
    (g : GroupSpec)
    (hnodup : (catalog.map (fun s => s.name)).Nodup)
    (hg : g ∈ catalog) :
    resolveMembers monitorMap g = g.monitors.filterMap monitorMap ∧
      ((∀ n ∈ g.monitors, monitorMap n = none) →
        resolveMembers monitorMap g = [] ∧
        ¬ g.name ∈ (rebuildGroups existing catalog monitorMap).map
            (fun og => og.name)) := by
  have hfm : ∀ gs : GroupSpec,
      resolveMembers monitorMap gs = gs.monitors.filterMap monitorMap := by
    intro gs
    unfold resolveMembers
    induction gs.monitors with
    | nil => rfl
    | cons n rest ih =>
        cases hmn : monitorMap n with
        | none =>
            simp [List.filter_cons, List.filterMap_cons, hmn, ih]
        | some v =>
            simp [List.filter_cons, List.filterMap_cons, hmn, ih]
  refine ⟨hfm g, ?_⟩
  intro hunres
  have hempty : resolveMembers monitorMap g = [] := by
    rw [hfm g]
    exact List.filterMap_eq_nil_iff.mpr hunres
  refine ⟨hempty, ?_⟩
  intro hmem
  rw [show rebuildGroups existing catalog monitorMap
      = keepGroups existing catalog
        ++ rebuildLoop monitorMap catalog []
            ((keepGroups existing catalog).length + 1) from
    rebuildLoop_acc monitorMap catalog (keepGroups existing catalog) _] at hmem
  rw [List.map_append, List.mem_append] at hmem
  rcases hmem with hmem | hmem
  · obtain ⟨kg, hkg, hkgname⟩ := List.mem_map.mp hmem
    have hkeep := List.of_mem_filter hkg
    rw [hkgname] at hkeep
    have hmm : g.name ∈ ourGroupNames catalog :=
      List.mem_map_of_mem (fun s => s.name) hg
    simp only [ourGroupNames] at hkeep hmm
    simp [hmm] at hkeep
  · obtain ⟨og, hog, hogname⟩ := List.mem_map.mp hmem
    obtain ⟨gs, hgs, hname, hne⟩ :=
      rebuildLoop_mem monitorMap catalog _ og hog
    have hsame : gs = g := by
      apply List.inj_on_of_nodup_map hnodup hgs hg
      show gs.name = g.name
      rw [← hname, hogname]
    rw [hsame] at hne
    exact hne hempty

/-- Witness for C9, applying the theorem at two concrete inputs: with one
member resolvable and one not, the resolved list keeps exactly the
resolvable member; with no member resolvable, the group vanishes from the
rebuilt list, which keeps only the foreign group. -/
theorem claim9_witness :
    (resolveMembers (fun n => if n = "Grafana" then some 7 else none)
          ⟨"Observability", ["Grafana", "Loki"]⟩
        = (GroupSpec.mk "Observability" ["Grafana", "Loki"]).monitors.filterMap
            (fun n => if n = "Grafana" then some 7 else none) ∧
      ((∀ n ∈ (GroupSpec.mk "Observability" ["Grafana", "Loki"]).monitors,
          (fun n => if n = "Grafana" then some 7 else none) n
            = (none : Option Nat)) →
        resolveMembers (fun n => if n = "Grafana" then some 7 else none)
            ⟨"Observability", ["Grafana", "Loki"]⟩ = [] ∧
        ¬ "Observability" ∈
            (rebuildGroups [⟨"External", 1, [1]⟩]
                [⟨"Observability", ["Grafana", "Loki"]⟩]
                (fun n => if n = "Grafana" then some 7 else none)).map
              (fun og => og.name))) ∧
    (resolveMembers (fun _ => (none : Option Nat))
          ⟨"Observability", ["Grafana", "Loki"]⟩
        = (GroupSpec.mk "Observability" ["Grafana", "Loki"]).monitors.filterMap
            (fun _ => (none : Option Nat)) ∧
      ((∀ n ∈ (GroupSpec.mk "Observability" ["Grafana", "Loki"]).monitors,
          (fun _ : String => (none : Option Nat)) n = (none : Option Nat)) →
        resolveMembers (fun _ => (none : Option Nat))
            ⟨"Observability", ["Grafana", "Loki"]⟩ = [] ∧
        ¬ "Observability" ∈
            (rebuildGroups [⟨"External", 1, [1]⟩]
                [⟨"Observability", ["Grafana", "Loki"]⟩]
                (fun _ => (none : Option Nat))).map (fun og => og.name))) :=
  ⟨claim9_unresolved_dropped [⟨"External", 1, [1]⟩]
      [⟨"Observability", ["Grafana", "Loki"]⟩]
      (fun n => if n = "Grafana" then some 7 else none)
      ⟨"Observability", ["Grafana", "Loki"]⟩ (by decide) (by decide),
    claim9_unresolved_dropped [⟨"External", 1, [1]⟩]
      [⟨"Observability", ["Grafana", "Loki"]⟩] (fun _ => (none : Option Nat))
      ⟨"Observability", ["Grafana", "Loki"]⟩ (by decide) (by decide)⟩

/-! ## JavaScript numbers and `parseInt` (deletion tool, `src/unnamed/part_002`) -/

/-- A JavaScript number as the deletion tool sees one: an integer or
`NaN`. -/
inductive JSNumber where
  | num (v : Int)
  | nan
deriving DecidableEq, Repr

/-- JavaScript `parseInt(s, 10)`: skip leading whitespace, take an
optional sign, then the longest digit prefix; `NaN` when no digit
follows, and trailing non-digits are ignored. -/
def parseInt10 (s : String) : JSNumber :=
  let cs := s.data.dropWhile Char.isWhitespace
  let signAndRest : Int × List Char :=
    match cs with
    | '-' :: t => (-1, t)
    | '+' :: t => (1, t)
    | t => (1, t)
  let digs := signAndRest.2.takeWhile Char.isDigit
  if digs.isEmpty then .nan
  else .num (signAndRest.1 *
    ((digs.foldl (fun a c => a * 10 + (c.toNat - 48)) 0 : Nat) : Int))

/-- The deletion tool's argument handling (`src/unnamed/part_002:21-27`):
`process.argv.slice(2).map(id => parseInt(id, 10))`, then only a
non-emptiness check — an empty list is a usage error (`none`, exit 1
before any network traffic); otherwise every parsed value, `NaN`
included, becomes a `deleteMonitor` request. -/
def deleteRequests (args : List String) : Option (List JSNumber) :=
  let ids := args.map parseInt10
  if ids.length = 0 then none else some ids

/-- **C10.** The deletion tool validates its arguments only for
non-emptiness: for every non-empty argument list it issues one delete
request per argument, each converted by base-10 `parseInt`, so a
non-numeric argument such as "abc" becomes `NaN` and is still sent to
the service rather than rejected up front. -/
theorem claim10_delete_args_parsed (args : List String) (h : args ≠ []) :
    deleteRequests args = some (args.map parseInt10) ∧
      (args.map parseInt10).length = args.length ∧
      parseInt10 "abc" = .nan := by
  refine ⟨?_, List.length_map args parseInt10, rfl⟩
  unfold deleteRequests
  rw [if_neg ?_]
  intro hlen
  rw [List.length_map] at hlen
  exact h (List.eq_nil_of_length_eq_zero hlen)

/-- Witness for C10: the argument list `["abc", "12"]` is accepted and
both arguments, the non-numeric one included, become requests. -/
theorem claim10_witness :
    deleteRequests ["abc", "12"] = some (["abc", "12"].map parseInt10) ∧
      ((["abc", "12"] : List String).map parseInt10).length
        = (["abc", "12"] : List String).length ∧
      parseInt10 "abc" = .nan :=
  claim10_delete_args_parsed ["abc", "12"] (by decide)

/-! ## Request inventory and timeout bounds (claim C6)

Every `socket.emit` call site in the repository, with the `withTimeout`
per-request bound where the call is wrapped in one, and the script's
run-scoped deadline (`setTimeout` ending in `process.exit(1)`):

* `add-ssl-dns-monitors.js`: `login` (line 246) and the `add` of each of
  the three category loops (lines 140, 178, 216) are wrapped in
  `withTimeout(..., 10000)`; 60 s overall deadline (lines 236-240);
* deletion tool `src/unnamed/part_002`: `login` (94) and `deleteMonitor`
  (102) wrapped in `withTimeout(..., 10000)`; 60 s deadline (84-88);
* `fix-api-pricing.js`: `login` (5) and `editMonitor` (9) have no
  per-request timeout; 30 s deadline (line 33);
* group rebuilder `src/unnamed/part_000`: `login` (22), `getMonitorList`
  (75), `getStatusPage` (35) and `saveStatusPage` (62) have no
  per-request timeout; 60 s deadline (line 80);
* monitor listing tool `list-monitors.js`, embedded in
  `src/grafana/entrypoint.sh` after the document separator: `login`
  (entrypoint.sh:59) has no per-request timeout; 30 s deadline
  (entrypoint.sh:50-54). -/

/-- One session request: issuing script, operation name, per-request
timeout if the call site wraps one, and the script's run deadline. -/
structure RequestInfo where
  script : String
  operation : String
  perRequestTimeoutMs : Option Nat
  runDeadlineMs : Option Nat
deriving DecidableEq, Repr

/-- The request inventory transcribed from the five scripts. -/
def sessionRequests : List RequestInfo :=
  [⟨"add-ssl-dns-monitors", "login", some 10000, some 60000⟩,
   ⟨"add-ssl-dns-monitors", "add ssl", some 10000, some 60000⟩,
   ⟨"add-ssl-dns-monitors", "add dns", some 10000, some 60000⟩,
   ⟨"add-ssl-dns-monitors", "add http", some 10000, some 60000⟩,
   ⟨"delete-monitors", "login", some 10000, some 60000⟩,
   ⟨"delete-monitors", "deleteMonitor", some 10000, some 60000⟩,
   ⟨"fix-api-pricing", "login", none, some 30000⟩,
   ⟨"fix-api-pricing", "editMonitor", none, some 30000⟩,
   ⟨"update-status-page", "login", none, some 60000⟩,
   ⟨"update-status-page", "getMonitorList", none, some 60000⟩,
   ⟨"update-status-page", "getStatusPage", none, some 60000⟩,
   ⟨"update-status-page", "saveStatusPage", none, some 60000⟩,
   ⟨"list-monitors", "login", none, some 30000⟩]

/-- **C6 counterexample.** Not every request carries a per-request
timeout: the `editMonitor` request of `fix-api-pricing.js` (like every
request of that script and of the group rebuilder) is sent with no
per-request timeout and is bounded only by the script's run deadline. -/
theorem claim6_counterexample :
    RequestInfo.mk "fix-api-pricing" "editMonitor" none (some 30000)
        ∈ sessionRequests ∧
      (RequestInfo.mk "fix-api-pricing" "editMonitor" none
          (some 30000)).perRequestTimeoutMs = none := by
  exact ⟨by decide, rfl⟩

/-- **C6 (amended).** Every request is bounded by some finite deadline —
a per-request timeout or the script's run-scoped one — and the requests
of the monitor-creation and deletion scripts all carry a 10 s per-request
timeout; the other three scripts (fix-api-pricing, the group rebuilder
and the listing tool) rely solely on their run deadline. -/
theorem claim6_amended_every_request_bounded (r : RequestInfo)
    (hr : r ∈ sessionRequests) :
    (r.perRequestTimeoutMs.isSome || r.runDeadlineMs.isSome) = true ∧
      ((r.script = "add-ssl-dns-monitors" ∨ r.script = "delete-monitors") →
        r.perRequestTimeoutMs = some 10000) := by
  fin_cases hr <;> exact ⟨rfl, by decide⟩

/-- Witness for C6 (amended): the `editMonitor` request is bounded by its
run deadline. -/
theorem claim6_amended_witness :
    ((RequestInfo.mk "fix-api-pricing" "editMonitor" none
          (some 30000)).perRequestTimeoutMs.isSome ||
        (RequestInfo.mk "fix-api-pricing" "editMonitor" none
          (some 30000)).runDeadlineMs.isSome) = true ∧
      (((RequestInfo.mk "fix-api-pricing" "editMonitor" none
            (some 30000)).script = "add-ssl-dns-monitors" ∨
          (RequestInfo.mk "fix-api-pricing" "editMonitor" none
            (some 30000)).script = "delete-monitors") →
        (RequestInfo.mk "fix-api-pricing" "editMonitor" none
            (some 30000)).perRequestTimeoutMs = some 10000) :=
  claim6_amended_every_request_bounded
    ⟨"fix-api-pricing", "editMonitor", none, some 30000⟩ (by decide)

/-! ## Script startup traces (claim C8)

What each of the five scripts — the monitor-creation script, the deletion
tool, the pricing-fix script, the group rebuilder, and the listing tool
`list-monitors.js` embedded in `src/grafana/entrypoint.sh` — does before
its first network traffic, as a function of the two credential
environment variables (a missing variable is `none`; JavaScript also
treats an empty string as falsy).  Each trace is truncated at the first
network operations, which is all C8 needs. -/

/-- Observable startup actions. -/
inductive Action where
  | errLine (s : String)
  | outLine (s : String)
  | exitProc (code : Nat)
  | connect
  | emitOp (op : String)
deriving DecidableEq, Repr

/-- `add-ssl-dns-monitors.js:20-24` then `main` (233, 242, 246): on falsy
`UPTIME_USER` or `UPTIME_PASS`, an error line to stderr, a usage line to
*stdout* (`console.log`), and `process.exit(1)` — before any socket is
created; otherwise the socket opens and `login` is emitted. -/
def addSslDnsStartup (user pass : Option String) : List Action :=
  if !(jsTruthy user) || !(jsTruthy pass) then
    [.errLine "Error: Set UPTIME_USER and UPTIME_PASS environment variables",
     .outLine "Usage: UPTIME_USER=xxx UPTIME_PASS=xxx node add-ssl-dns-monitors.js",
     .exitProc 1]
  else
    [.connect, .emitOp "login"]

/-- Deletion tool, `src/unnamed/part_002:15-27` then `main` (82, 90, 94):
credential check (error line to stderr, exit 1), then argument
non-emptiness check (two usage lines to stdout, exit 1), then socket and
`login`. -/
def deleteMonitorsStartup (user pass : Option String) (argv : List String) :
    List Action :=
  if !(jsTruthy user) || !(jsTruthy pass) then
    [.errLine "Error: Set UPTIME_USER and UPTIME_PASS environment variables",
     .exitProc 1]
  else if (argv.map parseInt10).length = 0 then
    [.outLine "Usage: UPTIME_USER=xxx UPTIME_PASS=xxx node delete-monitors.js <id1> <id2> ...",
     .outLine "Example: UPTIME_USER=xxx UPTIME_PASS=xxx node delete-monitors.js 11 16 17 18 19",
     .exitProc 1]
  else
    [.connect, .emitOp "login"]

/-- `fix-api-pricing.js:1-5`: no credential check at all — the socket is
created at module load and `login` is emitted on connect, whatever the
environment holds. -/
def fixApiPricingStartup (user pass : Option String) : List Action :=
  [.connect, .emitOp "login"]

/-- Group rebuilder, `src/unnamed/part_000:4-22`: reads the two variables
but performs no check — the socket is created at module load and `login`
is emitted on connect. -/
def updateStatusPageStartup (user pass : Option String) : List Action :=
  [.connect, .emitOp "login"]

/-- Listing tool `list-monitors.js` (embedded in
`src/grafana/entrypoint.sh`, lines 31-34 then 48, 59 of that file): on
falsy `UPTIME_USER` or `UPTIME_PASS`, an error line to stderr and
`process.exit(1)` before any socket is created; otherwise the socket
opens and `login` is emitted. -/
def listMonitorsStartup (user pass : Option String) : List Action :=
  if !(jsTruthy user) || !(jsTruthy pass) then
    [.errLine "Error: Set UPTIME_USER and UPTIME_PASS environment variables",
     .exitProc 1]
  else
    [.connect, .emitOp "login"]

/-- **C8 counterexample.** With both credential variables absent,
`fix-api-pricing.js` does not fail before network traffic: it opens the
connection and sends a `login` request, so the claim that *every* script
exits with a usage message before any network call is false. -/
theorem claim8_counterexample :
    fixApiPricingStartup none none = [Action.connect, Action.emitOp "login"] ∧
      Action.connect ∈ fixApiPricingStartup none none ∧
      updateStatusPageStartup none none
        = [Action.connect, Action.emitOp "login"] :=
  ⟨rfl, by decide, rfl⟩

/-- **C8 (amended).** The monitor-creation, deletion and listing scripts
check the credential variables: with either variable falsy they print an
error line to stderr (the creation script also prints a usage line, to
stdout) and exit 1 before any network action; the pricing-fix script and
the group rebuilder perform no check and open a connection and send
`login` regardless. -/
theorem claim8_amended_cred_check (user pass : Option String)
    (argv : List String)
    (h : jsTruthy user = false ∨ jsTruthy pass = false) :
    addSslDnsStartup user pass
        = [.errLine "Error: Set UPTIME_USER and UPTIME_PASS environment variables",
           .outLine "Usage: UPTIME_USER=xxx UPTIME_PASS=xxx node add-ssl-dns-monitors.js",
           .exitProc 1] ∧
      deleteMonitorsStartup user pass argv
        = [.errLine "Error: Set UPTIME_USER and UPTIME_PASS environment variables",
           .exitProc 1] ∧
      listMonitorsStartup user pass
        = [.errLine "Error: Set UPTIME_USER and UPTIME_PASS environment variables",
           .exitProc 1] ∧
      ¬ Action.connect ∈ addSslDnsStartup user pass ∧
      ¬ Action.connect ∈ deleteMonitorsStartup user pass argv ∧
      ¬ Action.connect ∈ listMonitorsStartup user pass ∧
      fixApiPricingStartup user pass = [.connect, .emitOp "login"] ∧
      updateStatusPageStartup user pass = [.connect, .emitOp "login"] := by
  have hcond : (!(jsTruthy user) || !(jsTruthy pass)) = true := by
    rcases h with h | h <;> rw [h] <;> simp
  have h1 : addSslDnsStartup user pass
      = [.errLine "Error: Set UPTIME_USER and UPTIME_PASS environment variables",
         .outLine "Usage: UPTIME_USER=xxx UPTIME_PASS=xxx node add-ssl-dns-monitors.js",
         .exitProc 1] := by
    unfold addSslDnsStartup
    rw [if_pos hcond]
  have h2 : deleteMonitorsStartup user pass argv
      = [.errLine "Error: Set UPTIME_USER and UPTIME_PASS environment variables",
         .exitProc 1] := by
    unfold deleteMonitorsStartup
    rw [if_pos hcond]
  have h3 : listMonitorsStartup user pass
      = [.errLine "Error: Set UPTIME_USER and UPTIME_PASS environment variables",
         .exitProc 1] := by
    unfold listMonitorsStartup
    rw [if_pos hcond]
  refine ⟨h1, h2, h3, ?_, ?_, ?_, rfl, rfl⟩
  · rw [h1]
    decide
  · rw [h2]
    decide
  · rw [h3]
    decide

/-- Witness for C8 (amended): both variables absent, empty argument
list. -/
theorem claim8_amended_witness :
    addSslDnsStartup none none
        = [.errLine "Error: Set UPTIME_USER and UPTIME_PASS environment variables",
           .outLine "Usage: UPTIME_USER=xxx UPTIME_PASS=xxx node add-ssl-dns-monitors.js",
           .exitProc 1] ∧
      deleteMonitorsStartup none none []
        = [.errLine "Error: Set UPTIME_USER and UPTIME_PASS environment variables",
           .exitProc 1] ∧
      listMonitorsStartup none none
        = [.errLine "Error: Set UPTIME_USER and UPTIME_PASS environment variables",
           .exitProc 1] ∧
      ¬ Action.connect ∈ addSslDnsStartup none none ∧
      ¬ Action.connect ∈ deleteMonitorsStartup none none [] ∧
      ¬ Action.connect ∈ listMonitorsStartup none none ∧
      fixApiPricingStartup none none = [.connect, .emitOp "login"] ∧
      updateStatusPageStartup none none = [.connect, .emitOp "login"] :=
  claim8_amended_cred_check none none [] (Or.inl rfl)

end Observability
